import Mathlib

/-!
Verification of the gemini-commit-message-hook repository.

The repository is a git `prepare-commit-msg` hook (`gemini_commit.py`) plus a
one-shot installer (`install.py`) and a configuration module (`config.py`).
The hook reads the staged diff and current branch via the git CLI, sends a
prompt to the Gemini HTTP API, and overwrites the commit-message file with the
returned text.

We give a shallow embedding: every interaction with the outside world (CLI
arguments, the configured key, the environment variable, whether the git
executable is on PATH, the output of the two git commands, the HTTP
response) is a field of a `World` record, and each Python function becomes a
pure Lean function of the parts of the world it consults.  `sys.exit(n)` is
modelled as an explicit terminal outcome, and an uncaught Python exception as
the outcome `raised`.  The final content of the commit-message file and
whether the key was resolved / git was run / the API was called / the file
was written are carried in the result record, so frame and temporal claims
are statements about that record.
-/

namespace GeminiHook

/-- Python truthiness of an optional string: `None` and `""` are falsy,
every other string is truthy.  Used by `get_api_key`
(`if config.GEMINI_API_KEY:` / `if not api_key:`). -/
def optStrTruthy : Option String → Bool
  | none => false
  | some s => s != ""

/-- `get_api_key` (gemini_commit.py lines 24-37).  First consults the
in-process configuration value `config.GEMINI_API_KEY`, then the environment
variable `GEMINI_API_KEY`.  `none` models `sys.exit(1)`; `some k` models
returning the key `k`. -/
def get_api_key (cfgKey envKey : Option String) : Option String :=
  if optStrTruthy cfgKey then cfgKey
  else if optStrTruthy envKey then envKey
  else none

/-- Outcome of the two git helpers: `exit1` models `sys.exit(1)` (git
executable not found on PATH), `ok s` models returning the string `s`. -/
inductive GitStr
  | exit1
  | ok (s : String)
  deriving DecidableEq, Repr

/-- `get_git_diff` (gemini_commit.py lines 40-53).  `gitOnPath` models
`shutil.which("git")` finding the executable; `diffCmd` is the behaviour of
`subprocess.check_output([git, "diff", "--staged"])`: `some out` for a
zero-exit run printing `out`, `none` for `CalledProcessError`, which the
source turns into the empty string. -/
def get_git_diff (gitOnPath : Bool) (diffCmd : Option String) : GitStr :=
  if gitOnPath then
    match diffCmd with
    | some out => .ok out
    | none => .ok ""
  else .exit1

/-- `get_branch_name` (gemini_commit.py lines 56-68).  Same shape as
`get_git_diff` but for `[git, "rev-parse", "--abbrev-ref", "HEAD"]`, and the
successful output is stripped (`.strip()`, modelled by `String.trim`). -/
def get_branch_name (gitOnPath : Bool) (branchCmd : Option String) : GitStr :=
  if gitOnPath then
    match branchCmd with
    | some out => .ok out.trim
    | none => .ok ""
  else .exit1

/-- A JSON value as produced by `json.loads`: object keys are strings. -/
inductive JValue
  | null
  | bool (b : Bool)
  | num (n : Int)
  | str (s : String)
  | arr (xs : List JValue)
  | obj (fields : List (String × JValue))

/-- Python `d[k]` on a parsed JSON value for a string key: succeeds only on
an object that has the key; on every other shape the subscript raises
(`TypeError` / `KeyError`), modelled by `none`. -/
def JValue.getField : JValue → String → Option JValue
  | .obj fs, k => (fs.find? (fun p => p.fst == k)).map (fun p => p.snd)
  | _, _ => none

/-- Python `v[0]` on a parsed JSON value: succeeds on a non-empty array;
otherwise the chain of subscripts in the source raises, modelled by `none`. -/
def JValue.index0 : JValue → Option JValue
  | .arr (x :: _) => some x
  | _ => none

/-- The extraction `result["candidates"][0]["content"]["parts"][0]["text"]`
(gemini_commit.py line 136).  `none` models an uncaught exception from a
missing/ill-typed step of the path. -/
def extractText (j : JValue) : Option JValue :=
  ((((((j.getField "candidates").bind JValue.index0).bind
      (fun c => JValue.getField c "content")).bind
      (fun c => JValue.getField c "parts")).bind JValue.index0).bind
      (fun p => JValue.getField p "text"))

/-- Python truthiness of a parsed JSON value, used by the walrus test
`if commit_message := generate_commit_message(...)` in `main`. -/
def JValue.pyTruthy : JValue → Bool
  | .null => false
  | .bool b => b
  | .num n => n != 0
  | .str s => s != ""
  | .arr xs => !xs.isEmpty
  | .obj fs => !fs.isEmpty

/-- What the single HTTPS request of an invocation does: `urlError` models
`urllib.error.URLError` raised by `urlopen` (transport failure), and
`response status body` a response object with the given status whose body,
once read and passed to `json.loads`, parses to `body` (`none` when the body
is not valid JSON, so `json.loads` raises). -/
inductive HttpResult
  | urlError
  | response (status : Nat) (body : Option JValue)

/-- Outcome of `generate_commit_message`: `exit1` models `sys.exit(1)`,
`raised` an uncaught exception, `returned v` returning the value `v`. -/
inductive GenResult
  | raised
  | exit1
  | returned (v : JValue)

/-- `generate_commit_message`, response handling (gemini_commit.py lines
132-146).  The prompt and request construction (lines 78-130) affect only
what is sent, which the embedding carries as the `HttpResult` input; the
returned value depends only on the response.  On status 200 the body is
parsed and the candidate text extracted (either step raising if it fails);
on any other status the function logs and exits 1; on a transport error it
logs and exits 1.  The trailing `return None` of the source is unreachable:
every branch above it returns, exits or raises. -/
def generate_commit_message (http : HttpResult) : GenResult :=
  match http with
  | .urlError => .exit1
  | .response status body =>
    if status = 200 then
      match body with
      | none => .raised
      | some j =>
        match extractText j with
        | some v => .returned v
        | none => .raised
    else .exit1

/-- How the process ends: `normal` models `main` returning (process exit
status 0), `exited c` models `sys.exit(c)`, `raised` an uncaught exception
(abnormal termination, non-zero status). -/
inductive ExitKind
  | normal
  | exited (code : Nat)
  | raised
  deriving DecidableEq, Repr

/-- The outside world one invocation of the hook observes. -/
structure World where
  /-- `sys.argv[2]` when present (the commit source), `none` when absent. -/
  argv2 : Option String
  /-- Content of the commit-message file (`sys.argv[1]`) at invocation. -/
  fileContent : String
  /-- `config.GEMINI_API_KEY` (`None` in the shipped config.py). -/
  cfgKey : Option String
  /-- The `GEMINI_API_KEY` environment variable, `none` when unset. -/
  envKey : Option String
  /-- Whether `shutil.which("git")` finds the executable. -/
  gitOnPath : Bool
  /-- Output of `git diff --staged` (`none` = non-zero exit of the command). -/
  diffCmd : Option String
  /-- Output of `git rev-parse --abbrev-ref HEAD` (`none` = non-zero exit). -/
  branchCmd : Option String
  /-- What the HTTPS request would observe if issued. -/
  httpResult : HttpResult

/-- Observable result of one invocation of `main`. -/
structure RunResult where
  exit : ExitKind
  /-- Final content of the commit-message file. -/
  file : String
  /-- Whether `get_api_key` was called. -/
  keyResolved : Bool
  /-- Whether a git child process was run. -/
  gitRun : Bool
  /-- Whether the HTTPS request was issued (`urlopen` reached). -/
  apiCalled : Bool
  /-- How many times the commit-message file was written. -/
  writeCount : Nat
  deriving DecidableEq, Repr

/-- `main` (gemini_commit.py lines 149-177), with the helpers inlined as the
pure functions above.  Mirrors the source order: merge check, hint read,
`get_api_key`, `get_git_diff`, `get_branch_name`, empty-diff check,
`generate_commit_message`, truthiness-guarded `write_text`.  A successful
`write_text` of a non-string value would raise `TypeError`, hence the
`raised` outcome on a truthy non-string extraction. -/
def main (w : World) : RunResult :=
  let commit_source := w.argv2.getD ""
  if commit_source = "merge" then
    { exit := .exited 0, file := w.fileContent, keyResolved := false,
      gitRun := false, apiCalled := false, writeCount := 0 }
  else
    let _user_message : Option String :=
      if commit_source = "message" then some w.fileContent.trim else none
    match get_api_key w.cfgKey w.envKey with
    | none =>
        { exit := .exited 1, file := w.fileContent, keyResolved := true,
          gitRun := false, apiCalled := false, writeCount := 0 }
    | some _api_key =>
        match get_git_diff w.gitOnPath w.diffCmd with
        | .exit1 =>
            { exit := .exited 1, file := w.fileContent, keyResolved := true,
              gitRun := false, apiCalled := false, writeCount := 0 }
        | .ok diff =>
            match get_branch_name w.gitOnPath w.branchCmd with
            | .exit1 =>
                { exit := .exited 1, file := w.fileContent, keyResolved := true,
                  gitRun := true, apiCalled := false, writeCount := 0 }
            | .ok _branch_name =>
                if diff = "" then
                  { exit := .exited 0, file := w.fileContent, keyResolved := true,
                    gitRun := true, apiCalled := false, writeCount := 0 }
                else
                  match generate_commit_message w.httpResult with
                  | .exit1 =>
                      { exit := .exited 1, file := w.fileContent, keyResolved := true,
                        gitRun := true, apiCalled := true, writeCount := 0 }
                  | .raised =>
                      { exit := .raised, file := w.fileContent, keyResolved := true,
                        gitRun := true, apiCalled := true, writeCount := 0 }
                  | .returned v =>
                      if v.pyTruthy then
                        match v with
                        | .str s =>
                            { exit := .normal, file := s, keyResolved := true,
                              gitRun := true, apiCalled := true, writeCount := 1 }
                        | _ =>
                            { exit := .raised, file := w.fileContent, keyResolved := true,
                              gitRun := true, apiCalled := true, writeCount := 0 }
                      else
                        { exit := .normal, file := w.fileContent, keyResolved := true,
                          gitRun := true, apiCalled := true, writeCount := 0 }

end GeminiHook

namespace Installer

/-- Observable result of one run of install.py's `main`: `exitCode` is
`some 1` when the run ended in `sys.exit(1)`, `none` when it returned;
`hookFile` is the content written to `.git/hooks/prepare-commit-msg`, `none`
when no hook file was created. -/
structure InstallOutcome where
  exitCode : Option Nat
  hookFile : Option String
  deriving DecidableEq, Repr

/-- `stat.S_IEXEC`: the owner-execute permission bit. -/
def S_IEXEC : Nat := 0o100

/-- The mode `hook_path.chmod(hook_path.stat().st_mode | stat.S_IEXEC)`
sets, as a function of the file's mode `m` at that point
(install.py line 36). -/
def chmodResult (m : Nat) : Nat := m ||| S_IEXEC

/-- The hook stub install.py writes (lines 29-33): shebang, then an
invocation of python on the resolved script path (backslashes doubled for
the shell string) with `$1`. -/
def hookContent (scriptPathResolved : String) : String :=
  "#!/bin/sh\npython " ++ (scriptPathResolved.replace "\\" "\\\\") ++ " $1\n"

/-- install.py `main` (lines 20-38): if no `.git` entry exists in the
current working directory, log and `sys.exit(1)` with no hook file created;
otherwise ensure the hook dir and write the stub.  `gitDirExists` models
`Path(".git").exists()`; `scriptPathResolved` the resolved absolute path of
gemini_commit.py. -/
def main (gitDirExists : Bool) (scriptPathResolved : String) : InstallOutcome :=
  if gitDirExists then
    { exitCode := none, hookFile := some (hookContent scriptPathResolved) }
  else
    { exitCode := some 1, hookFile := none }

end Installer

/-! ## Concrete worlds used to instantiate the claims -/

/-- A merge invocation: `sys.argv[2] = "merge"`. -/
def mergeWorld : GeminiHook.World :=
  { argv2 := some "merge", fileContent := "orig", cfgKey := none, envKey := none,
    gitOnPath := false, diffCmd := none, branchCmd := none,
    httpResult := .urlError }

/-! ## Claims -/

/-- Claim C6: for every invocation whose second CLI argument equals
"merge", the process exits with status 0, the API client is never invoked,
and no credentials are resolved, git commands run, or file writes
performed (gemini_commit.py lines 152-156: the merge check precedes
`get_api_key`, both git helpers, `generate_commit_message` and
`write_text`). -/
theorem claim_c6_merge_skips_everything (w : GeminiHook.World)
    (h : w.argv2 = some "merge") :
    GeminiHook.main w =
      { exit := .exited 0, file := w.fileContent, keyResolved := false,
        gitRun := false, apiCalled := false, writeCount := 0 } := by
  simp [GeminiHook.main, h]

/-- Witness for C6 at a concrete merge invocation. -/
theorem claim_c6_witness :
    GeminiHook.main mergeWorld =
      { exit := .exited 0, file := "orig", keyResolved := false,
        gitRun := false, apiCalled := false, writeCount := 0 } :=
  claim_c6_merge_skips_everything mergeWorld rfl

/-- Claim C7: run outside a version-control working directory (no `.git`
entry in the cwd), the installer exits non-zero and creates no hook file
(install.py lines 22-24: the existence check precedes every filesystem
write). -/
theorem claim_c7_installer_requires_git_dir (scriptPathResolved : String) :
    Installer.main false scriptPathResolved =
      { exitCode := some 1, hookFile := none } := rfl

/-- Claim C8: the installer's final `chmod` sets exactly the owner-execute
bit (`stat.S_IEXEC = 0o100`, bit 6) in addition to the file's pre-existing
mode bits `m`: bit 6 of the result is always set, and every bit `i ≠ 6`
of the result equals bit `i` of `m` (install.py line 36). -/
theorem claim_c8_chmod_adds_owner_execute_only (m i : Nat) :
    (Installer.chmodResult m).testBit i = (m.testBit i || decide (i = 6)) := by
  have h64 : ∀ j : Nat, (64 : Nat).testBit j = decide (j = 6) := by
    intro j
    by_cases h : j = 6
    · subst h; decide
    · have h2 : (64 : Nat) = 2 ^ 6 := by norm_num
      rw [h2, Nat.testBit_two_pow_of_ne (by omega)]
      simp [h]
  unfold Installer.chmodResult Installer.S_IEXEC
  rw [Nat.testBit_lor, h64]

/-- Claim C10: an empty-string API key is everywhere treated as absent: an
empty in-process key falls through to the environment variable, an empty
environment value (with no usable in-process key) triggers the fatal exit,
and `get_api_key` never returns the empty string (gemini_commit.py lines
24-37: both checks are Python truthiness tests, falsy on `""`). -/
theorem claim_c10_empty_key_treated_absent (cfg env : Option String) :
    GeminiHook.get_api_key (some "") env = GeminiHook.get_api_key none env ∧
    GeminiHook.get_api_key none (some "") = none ∧
    GeminiHook.get_api_key (some "") (some "") = none ∧
    GeminiHook.get_api_key cfg env ≠ some "" := by
  have key_ne : ∀ o : Option String,
      GeminiHook.optStrTruthy o = true → o ≠ some "" := by
    intro o ho
    cases o with
    | none => intro hcon; cases hcon
    | some s =>
      simp [GeminiHook.optStrTruthy] at ho
      simp [ho]
  refine ⟨rfl, rfl, rfl, ?_⟩
  unfold GeminiHook.get_api_key
  split
  next hc => exact key_ne cfg hc
  next =>
    split
    next he => exact key_ne env he
    next => simp

/-- An invocation with a key configured, git on PATH, and an empty staged
diff. -/
def emptyDiffWorld : GeminiHook.World :=
  { argv2 := some "message", fileContent := "a hint", cfgKey := some "k",
    envKey := none, gitOnPath := true, diffCmd := some "",
    branchCmd := some "main\n", httpResult := .urlError }

/-- Claim C1: for every invocation whose commit-source is not "merge" and
that hits no error before the diff fetch (a key resolves, git is on PATH),
if the staged diff is the empty string then the process exits 0 and the
commit-message file keeps its content at invocation (gemini_commit.py
lines 166-168: the empty-diff check exits 0 before
`generate_commit_message` and `write_text`; a failing diff command is
already the empty string, lines 51-53). -/
theorem claim_c1_empty_diff_exit_zero (w : GeminiHook.World)
    (hm : w.argv2.getD "" ≠ "merge")
    (hk : GeminiHook.get_api_key w.cfgKey w.envKey ≠ none)
    (hg : w.gitOnPath = true)
    (hd : w.diffCmd.getD "" = "") :
    (GeminiHook.main w).exit = .exited 0 ∧
    (GeminiHook.main w).file = w.fileContent ∧
    (GeminiHook.main w).writeCount = 0 := by
  obtain ⟨k, hk⟩ := Option.ne_none_iff_exists'.mp hk
  have hdiff : GeminiHook.get_git_diff w.gitOnPath w.diffCmd = .ok "" := by
    cases hcmd : w.diffCmd with
    | none => simp [GeminiHook.get_git_diff, hg]
    | some s =>
      have hs : s = "" := by simpa [hcmd] using hd
      simp [GeminiHook.get_git_diff, hg, hcmd, hs]
  obtain ⟨b, hbr⟩ : ∃ b, GeminiHook.get_branch_name w.gitOnPath w.branchCmd = .ok b := by
    cases hb : w.branchCmd with
    | none => exact ⟨"", by simp [GeminiHook.get_branch_name, hg]⟩
    | some s => exact ⟨s.trim, by simp [GeminiHook.get_branch_name, hg]⟩
  simp [GeminiHook.main, hm, hk, hdiff, hbr]

/-- Witness for C1 at a concrete empty-diff invocation. -/
theorem claim_c1_witness :
    (GeminiHook.main emptyDiffWorld).exit = .exited 0 ∧
    (GeminiHook.main emptyDiffWorld).file = emptyDiffWorld.fileContent ∧
    (GeminiHook.main emptyDiffWorld).writeCount = 0 :=
  claim_c1_empty_diff_exit_zero emptyDiffWorld (by decide) (by decide) rfl rfl

/-- Counterexample to claim C3 as stated: with the git executable absent
from PATH, `get_branch_name` does not return a string — it terminates the
process (`sys.exit(1)`, gemini_commit.py lines 58-61), contradicting
"never terminates the process ... including the version-control executable
being absent from PATH". -/
theorem claim_c3_counterexample :
    GeminiHook.get_branch_name false (some "main\n") = .exit1 ∧
    GeminiHook.get_branch_name false (some "main\n") ≠ .ok "" ∧
    GeminiHook.get_branch_name false (some "main\n") ≠ .ok "main" := by
  refine ⟨rfl, by decide, by decide⟩

/-- Claim C3 as amended: when the git executable is on PATH,
`get_branch_name` never terminates the process — it returns the command's
trimmed output, and the empty string on any failure of the branch lookup
command itself; when the git executable is absent from PATH it exits
non-zero (gemini_commit.py lines 56-68). -/
theorem claim_c3_amended_branch_best_effort (out : String) (cmd : Option String) :
    GeminiHook.get_branch_name true (some out) = .ok out.trim ∧
    GeminiHook.get_branch_name true none = .ok "" ∧
    GeminiHook.get_branch_name false cmd = .exit1 :=
  ⟨rfl, rfl, rfl⟩

/-- An invocation with no key anywhere: config `None`, environment unset. -/
def noKeyWorld : GeminiHook.World :=
  { argv2 := none, fileContent := "orig", cfgKey := none, envKey := none,
    gitOnPath := true, diffCmd := some "some diff", branchCmd := some "main\n",
    httpResult := .urlError }

/-- Claim C4: if neither the in-process key nor the `GEMINI_API_KEY`
environment variable carries a usable (non-empty) key, a non-merge
invocation exits non-zero with the HTTPS request never issued
(gemini_commit.py lines 29-36, 162: `get_api_key` runs before `urlopen`);
and whenever either carries a usable key, `get_api_key` returns a key
without exiting. -/
theorem claim_c4_missing_key_exits_before_network (w : GeminiHook.World)
    (hcfg : GeminiHook.optStrTruthy w.cfgKey = false)
    (henv : GeminiHook.optStrTruthy w.envKey = false)
    (hm : w.argv2.getD "" ≠ "merge") :
    (GeminiHook.main w).exit = .exited 1 ∧
    (GeminiHook.main w).apiCalled = false ∧
    GeminiHook.get_api_key w.cfgKey w.envKey = none ∧
    ∀ cfg env : Option String,
      (GeminiHook.optStrTruthy cfg || GeminiHook.optStrTruthy env) = true →
        ∃ k, GeminiHook.get_api_key cfg env = some k := by
  have hkey : GeminiHook.get_api_key w.cfgKey w.envKey = none := by
    simp [GeminiHook.get_api_key, hcfg, henv]
  refine ⟨?_, ?_, hkey, ?_⟩
  · simp [GeminiHook.main, hm, hkey]
  · simp [GeminiHook.main, hm, hkey]
  · intro cfg env h
    by_cases hc : GeminiHook.optStrTruthy cfg = true
    · cases cfg with
      | none => cases hc
      | some c => exact ⟨c, by simp [GeminiHook.get_api_key, hc]⟩
    · have he : GeminiHook.optStrTruthy env = true := by
        rcases Bool.or_eq_true_iff.mp h with h1 | h1
        · exact absurd h1 hc
        · exact h1
      cases env with
      | none => cases he
      | some e =>
        exact ⟨e, by simp [GeminiHook.get_api_key, Bool.eq_false_iff.mpr hc, hc, he]⟩

/-- Witness for C4 at a concrete keyless non-merge invocation. -/
theorem claim_c4_witness :
    (GeminiHook.main noKeyWorld).exit = .exited 1 ∧
    (GeminiHook.main noKeyWorld).apiCalled = false ∧
    GeminiHook.get_api_key noKeyWorld.cfgKey noKeyWorld.envKey = none ∧
    ∀ cfg env : Option String,
      (GeminiHook.optStrTruthy cfg || GeminiHook.optStrTruthy env) = true →
        ∃ k, GeminiHook.get_api_key cfg env = some k :=
  claim_c4_missing_key_exits_before_network noKeyWorld rfl rfl (by decide)

/-- Claim C2: the commit-message file is written at most once, and only
when the API client returned a non-empty message string; on every other
path — every non-zero exit (missing key, missing git, non-200 response,
transport failure), every abnormal termination, and the path where the
returned message is empty — the file keeps its original content
(gemini_commit.py lines 171-177: the single `write_text` call sits behind
the truthiness test of the returned message, and every failure exits
before it). -/
theorem claim_c2_write_once_only_nonempty (w : GeminiHook.World) :
    (GeminiHook.main w).writeCount ≤ 1 ∧
    (((GeminiHook.main w).file = w.fileContent ∧
        (GeminiHook.main w).writeCount = 0) ∨
      ∃ s : String, s ≠ "" ∧
        GeminiHook.generate_commit_message w.httpResult =
          .returned (.str s) ∧
        (GeminiHook.main w).file = s ∧ (GeminiHook.main w).writeCount = 1 ∧
        (GeminiHook.main w).exit = .normal) := by
  simp only [GeminiHook.main]
  repeat' split
  all_goals try exact ⟨by norm_num, Or.inl ⟨rfl, rfl⟩⟩
  next _v s hgen htruthy =>
    refine ⟨by norm_num, Or.inr ⟨s, ?_, hgen, rfl, rfl, rfl⟩⟩
    simpa [GeminiHook.JValue.pyTruthy] using htruthy

/-- A 200 response body whose extracted candidate text is the empty
string. -/
def emptyMsgJson : GeminiHook.JValue :=
  .obj [("candidates", .arr [.obj [("content",
      .obj [("parts", .arr [.obj [("text", .str "")]])])]])]

/-- A full success-path invocation whose API reply carries the empty
string as its candidate text. -/
def emptyMsgWorld : GeminiHook.World :=
  { argv2 := none, fileContent := "orig", cfgKey := some "k", envKey := none,
    gitOnPath := true, diffCmd := some "some diff", branchCmd := some "main\n",
    httpResult := .response 200 (some emptyMsgJson) }

/-- Counterexample to claim C5 as stated: on this invocation the API
client returns the string `""` on the success path (status 200, the
candidate text extracted), yet the final content of the commit-message
file is the original `"orig"`, not `""` — the walrus truthiness test at
gemini_commit.py line 171 skips the write for an empty message. -/
theorem claim_c5_counterexample :
    GeminiHook.generate_commit_message emptyMsgWorld.httpResult =
      .returned (.str "") ∧
    (GeminiHook.main emptyMsgWorld).file = "orig" ∧
    (GeminiHook.main emptyMsgWorld).file ≠ "" := by
  refine ⟨rfl, rfl, by decide⟩

/-- Claim C5 as amended: for every non-empty string `S` returned by the
API client on the success path, the final content of the commit-message
file equals `S` exactly — no trimming, prefixing, or appended whitespace
(gemini_commit.py line 177 writes the returned string verbatim); when the
returned string is empty the file is left untouched. -/
theorem claim_c5_amended_verbatim_write (w : GeminiHook.World) (s : String)
    (hm : w.argv2.getD "" ≠ "merge")
    (hk : GeminiHook.get_api_key w.cfgKey w.envKey ≠ none)
    (hg : w.gitOnPath = true)
    (hd : w.diffCmd.getD "" ≠ "")
    (hgen : GeminiHook.generate_commit_message w.httpResult =
      .returned (.str s))
    (hs : s ≠ "") :
    (GeminiHook.main w).file = s ∧
    (GeminiHook.main w).writeCount = 1 ∧
    (GeminiHook.main w).exit = .normal := by
  obtain ⟨k, hk⟩ := Option.ne_none_iff_exists'.mp hk
  have hdiff : GeminiHook.get_git_diff w.gitOnPath w.diffCmd =
      .ok (w.diffCmd.getD "") := by
    cases hcmd : w.diffCmd <;> simp [GeminiHook.get_git_diff, hg]
  obtain ⟨b, hbr⟩ : ∃ b, GeminiHook.get_branch_name w.gitOnPath w.branchCmd = .ok b := by
    cases hb : w.branchCmd with
    | none => exact ⟨"", by simp [GeminiHook.get_branch_name, hg]⟩
    | some t => exact ⟨t.trim, by simp [GeminiHook.get_branch_name, hg]⟩
  simp [GeminiHook.main, hm, hk, hdiff, hbr, hd, hgen,
    GeminiHook.JValue.pyTruthy, hs]

/-- A 200 response body carrying the candidate text `"msg"`. -/
def msgJson : GeminiHook.JValue :=
  .obj [("candidates", .arr [.obj [("content",
      .obj [("parts", .arr [.obj [("text", .str "msg")]])])]])]

/-- A full success-path invocation whose API reply carries `"msg"`. -/
def msgWorld : GeminiHook.World :=
  { argv2 := none, fileContent := "orig", cfgKey := some "k", envKey := none,
    gitOnPath := true, diffCmd := some "some diff", branchCmd := some "main\n",
    httpResult := .response 200 (some msgJson) }

/-- Witness for the amended C5 at a concrete success-path invocation. -/
theorem claim_c5_witness :
    (GeminiHook.main msgWorld).file = "msg" ∧
    (GeminiHook.main msgWorld).writeCount = 1 ∧
    (GeminiHook.main msgWorld).exit = .normal :=
  claim_c5_amended_verbatim_write msgWorld "msg" (by decide) (by decide) rfl
    (by decide) rfl (by decide)

/-- Claim C9: for every HTTP 200 response whose body is not valid JSON or
lacks the `candidates[0].content.parts[0].text` path, the extraction
raises an uncaught exception (gemini_commit.py lines 135-136: neither
`json.loads` errors nor key/index errors are caught), so
`generate_commit_message` never returns a value, the process terminates
abnormally, and the commit-message file is not written. -/
theorem claim_c9_bad_success_body_raises (w : GeminiHook.World) (j : GeminiHook.JValue)
    (hm : w.argv2.getD "" ≠ "merge")
    (hk : GeminiHook.get_api_key w.cfgKey w.envKey ≠ none)
    (hg : w.gitOnPath = true)
    (hd : w.diffCmd.getD "" ≠ "")
    (hbad : w.httpResult = .response 200 none ∨
      (w.httpResult = .response 200 (some j) ∧ GeminiHook.extractText j = none)) :
    GeminiHook.generate_commit_message w.httpResult = .raised ∧
    (GeminiHook.main w).exit = .raised ∧
    (GeminiHook.main w).file = w.fileContent ∧
    (GeminiHook.main w).writeCount = 0 := by
  have hgen : GeminiHook.generate_commit_message w.httpResult = .raised := by
    rcases hbad with h | ⟨h, hex⟩
    · rw [h]; rfl
    · rw [h]; simp [GeminiHook.generate_commit_message, hex]
  obtain ⟨k, hk⟩ := Option.ne_none_iff_exists'.mp hk
  have hdiff : GeminiHook.get_git_diff w.gitOnPath w.diffCmd =
      .ok (w.diffCmd.getD "") := by
    cases hcmd : w.diffCmd <;> simp [GeminiHook.get_git_diff, hg]
  obtain ⟨b, hbr⟩ : ∃ b, GeminiHook.get_branch_name w.gitOnPath w.branchCmd = .ok b := by
    cases hb : w.branchCmd with
    | none => exact ⟨"", by simp [GeminiHook.get_branch_name, hg]⟩
    | some t => exact ⟨t.trim, by simp [GeminiHook.get_branch_name, hg]⟩
  refine ⟨hgen, ?_⟩
  simp [GeminiHook.main, hm, hk, hdiff, hbr, hd, hgen]

/-- A success-status reply whose parsed body has no `candidates` key. -/
def badBodyWorld : GeminiHook.World :=
  { argv2 := none, fileContent := "orig", cfgKey := some "k", envKey := none,
    gitOnPath := true, diffCmd := some "some diff", branchCmd := some "main\n",
    httpResult := .response 200 (some (.obj [])) }

/-- Witness for C9 at a concrete 200 reply whose body lacks the path. -/
theorem claim_c9_witness :
    GeminiHook.generate_commit_message badBodyWorld.httpResult = .raised ∧
    (GeminiHook.main badBodyWorld).exit = .raised ∧
    (GeminiHook.main badBodyWorld).file = badBodyWorld.fileContent ∧
    (GeminiHook.main badBodyWorld).writeCount = 0 :=
  claim_c9_bad_success_body_raises badBodyWorld (.obj []) (by decide) (by decide)
    rfl (by decide) (Or.inr ⟨rfl, rfl⟩)
